import Mathlib

/-!
Verification of the Account & Usage Synchronization Engine of the
codex-switcher repository (src/src/hooks/useAccounts.ts,
src/src/components/AddAccountModal.tsx, src/src/App.tsx).

The TypeScript hook state is embedded as an explicit `RegistryState`; each
asynchronous operation becomes a pure function parameterized by the
response(s) the remote command gateway (Tauri `invoke`) would return,
written as `Except String α` (a thrown error carries its message string).
TypeScript `undefined` on optional fields is `Option.none`.  Numeric usage
fields (floating-point in TypeScript) are embedded as `Int`; no operation
in this file performs arithmetic on them, so only their identity matters.
-/

namespace CodexSwitcher

/-- Auth mode of an account, from src/src/types.ts (`"api_key" | "chat_gpt"`). -/
inductive AuthMode where
  | api_key
  | chat_gpt
deriving DecidableEq, Repr

/-- Account metadata returned by the gateway, from `AccountInfo` in src/src/types.ts. -/
structure AccountInfo where
  id : String
  name : String
  email : Option String
  plan_type : Option String
  auth_mode : AuthMode
  is_active : Bool
  created_at : String
  last_used_at : Option String
deriving DecidableEq, Repr

/-- Per-account usage snapshot, from `UsageInfo` in src/src/types.ts. -/
structure UsageInfo where
  account_id : String
  plan_type : Option String
  primary_used_percent : Option Int
  primary_window_minutes : Option Int
  primary_resets_at : Option Int
  secondary_used_percent : Option Int
  secondary_window_minutes : Option Int
  secondary_resets_at : Option Int
  has_credits : Option Bool
  unlimited_credits : Option Bool
  credits_balance : Option String
  error : Option String
deriving DecidableEq, Repr

/-- Registry entry, from `AccountWithUsage extends AccountInfo` in src/src/types.ts:
the optional fields `usage?` and `usageLoading?` start out `undefined` (`none`). -/
structure AccountWithUsage extends AccountInfo where
  usage : Option UsageInfo := none
  usageLoading : Option Bool := none
deriving DecidableEq, Repr

/-- The `useAccounts` hook state: `accounts`, `loading`, `error`
(src/src/hooks/useAccounts.ts lines 6-8). -/
structure RegistryState where
  accounts : List AccountWithUsage
  loading : Bool
  error : Option String
deriving DecidableEq, Repr

/-- The lookup `usageMap.get(a.id)` where
`usageMap = new Map(prev.map((a) => [a.id, a.usage]))`
(src/src/hooks/useAccounts.ts line 23).  A JavaScript `Map` built from a
key/value list keeps the last binding for a duplicated key, and `get`
returns `undefined` both for a missing key and for a stored `undefined`
usage, hence the `reverse`/`find?`/`bind`. -/
def usageMapGet (prev : List AccountWithUsage) (id : String) : Option UsageInfo :=
  (prev.reverse.find? (fun a => a.toAccountInfo.id == id)).bind (fun a => a.usage)

/-- `loadAccounts(preserveUsage)` from src/src/hooks/useAccounts.ts lines 10-37.
`tauri` is the `isTauri()` environment guard; `listResult` is the outcome of
`invoke("list_accounts")`.  On success the registry is replaced (carrying
usage forward by id when `preserveUsage`); on failure only `error` is set and
the account list is untouched; `loading` ends `false` on every path. -/
def loadAccounts (tauri : Bool) (preserveUsage : Bool)
    (listResult : Except String (List AccountInfo)) (s : RegistryState) : RegistryState :=
  if !tauri then
    { s with loading := false }
  else
    match listResult with
    | Except.ok accountList =>
        if preserveUsage then
          { accounts := accountList.map (fun a =>
              { toAccountInfo := a, usage := usageMapGet s.accounts a.id, usageLoading := none }),
            loading := false, error := none }
        else
          { accounts := accountList.map (fun a =>
              { toAccountInfo := a, usage := none, usageLoading := none }),
            loading := false, error := none }
    | Except.error msg =>
        { s with error := some msg, loading := false }

/-- `refreshUsage` (the spec's `refreshAll`) from src/src/hooks/useAccounts.ts
lines 39-52.  On success every account is rebuilt as
`{ ...account, usage, usageLoading: false }` where
`usage = usageList.find((u) => u.account_id === account.id)`; on failure the
state is untouched and the error is rethrown. -/
def refreshUsage (result : Except String (List UsageInfo)) (s : RegistryState) :
    RegistryState × Except String Unit :=
  match result with
  | Except.ok usageList =>
      ({ s with accounts := s.accounts.map (fun account =>
          { account with
            usage := usageList.find? (fun u => u.account_id == account.toAccountInfo.id),
            usageLoading := some false }) },
       Except.ok ())
  | Except.error msg => (s, Except.error msg)

/-- First `setAccounts` of `refreshSingleUsage` (src/src/hooks/useAccounts.ts
lines 56-60): mark the matching id as loading. -/
def refreshSingleStart (accountId : String) (s : RegistryState) : RegistryState :=
  { s with accounts := s.accounts.map (fun a =>
      if a.toAccountInfo.id == accountId then { a with usageLoading := some true } else a) }

/-- Completion of `refreshSingleUsage` (src/src/hooks/useAccounts.ts lines
61-75), applied to whatever the registry holds when the `invoke("get_usage")`
promise settles: on success store the snapshot and clear the flag for the
matching id; on failure only clear the flag and rethrow. -/
def refreshSingleComplete (accountId : String) (result : Except String UsageInfo)
    (s : RegistryState) : RegistryState × Except String Unit :=
  match result with
  | Except.ok usage =>
      ({ s with accounts := s.accounts.map (fun a =>
          if a.toAccountInfo.id == accountId then
            { a with usage := some usage, usageLoading := some false }
          else a) },
       Except.ok ())
  | Except.error msg =>
      ({ s with accounts := s.accounts.map (fun a =>
          if a.toAccountInfo.id == accountId then { a with usageLoading := some false } else a) },
       Except.error msg)

/-- `refreshSingleUsage(accountId)` run without interleaving: the start phase
immediately followed by its own completion (src/src/hooks/useAccounts.ts
lines 54-76). -/
def refreshSingleUsage (accountId : String) (result : Except String UsageInfo)
    (s : RegistryState) : RegistryState × Except String Unit :=
  refreshSingleComplete accountId result (refreshSingleStart accountId s)

/-- `switchAccount` from src/src/hooks/useAccounts.ts lines 78-88:
`invoke("switch_account")` then, only on success, `loadAccounts(true)`;
a gateway failure is rethrown unmodified with the state untouched. -/
def switchAccount (tauri : Bool) (accountId : String) (switchResult : Except String Unit)
    (listResult : Except String (List AccountInfo)) (s : RegistryState) :
    RegistryState × Except String Unit :=
  match switchResult with
  | Except.ok _ => (loadAccounts tauri true listResult s, Except.ok ())
  | Except.error msg => (s, Except.error msg)

/-- `deleteAccount` from src/src/hooks/useAccounts.ts lines 90-100:
`invoke("delete_account")` then, only on success, `loadAccounts()` with the
default `preserveUsage = false`. -/
def deleteAccount (tauri : Bool) (accountId : String) (deleteResult : Except String Unit)
    (listResult : Except String (List AccountInfo)) (s : RegistryState) :
    RegistryState × Except String Unit :=
  match deleteResult with
  | Except.ok _ => (loadAccounts tauri false listResult s, Except.ok ())
  | Except.error msg => (s, Except.error msg)

/-- `renameAccount` from src/src/hooks/useAccounts.ts lines 102-112:
`invoke("rename_account")` then, only on success, `loadAccounts(true)`. -/
def renameAccount (tauri : Bool) (accountId : String) (newName : String)
    (renameResult : Except String Unit) (listResult : Except String (List AccountInfo))
    (s : RegistryState) : RegistryState × Except String Unit :=
  match renameResult with
  | Except.ok _ => (loadAccounts tauri true listResult s, Except.ok ())
  | Except.error msg => (s, Except.error msg)

/-- `importFromFile` from src/src/hooks/useAccounts.ts lines 114-125:
`invoke("add_account_from_file")` then, only on success, `loadAccounts()`
(fresh, `preserveUsage = false`) followed by `refreshUsage()`; a failure of
the import call is rethrown with the state untouched (and a failure of the
trailing `refreshUsage` is also rethrown, as in the source). -/
def importFromFile (tauri : Bool) (path : String) (name : String)
    (importResult : Except String AccountInfo)
    (listResult : Except String (List AccountInfo))
    (refreshResult : Except String (List UsageInfo)) (s : RegistryState) :
    RegistryState × Except String Unit :=
  match importResult with
  | Except.ok _ => refreshUsage refreshResult (loadAccounts tauri false listResult s)
  | Except.error msg => (s, Except.error msg)

/-- Calls the engine issues to collaborators during the OAuth flow:
the three gateway login operations plus the external browser opener
(`openUrl`, not a gateway operation). -/
inductive ExternalCall where
  | startLogin
  | completeLogin
  | cancelLogin
  | openBrowser
deriving DecidableEq, Repr

/-- `{ auth_url, callback_port }` returned by `invoke("start_login")`,
from `OAuthLoginInfo` in src/src/types.ts. -/
structure OAuthLoginInfo where
  auth_url : String
  callback_port : Nat
deriving DecidableEq, Repr

/-- Tabs of the add-account modal, from `type Tab = "oauth" | "import"` in
src/src/components/AddAccountModal.tsx (the `"import"` tab is named
`importFile` here because `import` is reserved in Lean). -/
inductive Tab where
  | oauth
  | importFile
deriving DecidableEq, Repr

/-- Local state of `AddAccountModal` (src/src/components/AddAccountModal.tsx
lines 24-30) plus the parent-owned `isOpen` flag closed by `onClose`. -/
structure ModalState where
  activeTab : Tab
  name : String
  filePath : String
  loading : Bool
  error : Option String
  oauthPending : Bool
  isOpen : Bool
deriving DecidableEq, Repr

/-- JavaScript `String.prototype.trim` as used on the account name in
src/src/components/AddAccountModal.tsx: strips leading and trailing
whitespace (structural recursion over the character list, so it evaluates). -/
def jsTrim (s : String) : String :=
  String.mk (((s.data.dropWhile Char.isWhitespace).reverse.dropWhile Char.isWhitespace).reverse)

/-- `cancelOAuthLogin` from src/src/hooks/useAccounts.ts lines 150-156:
always issues `invoke("cancel_login")`; a gateway failure is caught and
logged, never propagated. -/
def cancelOAuthLogin (cancelResult : Except String Unit) :
    List ExternalCall × Except String Unit :=
  ([ExternalCall.cancelLogin], Except.ok ())

/-- `resetForm` from src/src/components/AddAccountModal.tsx lines 32-38. -/
def resetForm (s : ModalState) : ModalState :=
  { s with name := "", filePath := "", error := none, loading := false, oauthPending := false }

/-- `handleClose` from src/src/components/AddAccountModal.tsx lines 40-46:
if an OAuth login is pending it fires `onCancelOAuth()` (the engine's
`cancelOAuthLogin`), then resets the form and closes the surface. -/
def handleClose (cancelResult : Except String Unit) (s : ModalState) :
    ModalState × List ExternalCall :=
  ({ resetForm s with isOpen := false },
   if s.oauthPending then (cancelOAuthLogin cancelResult).1 else [])

/-- The tab button `onClick` from src/src/components/AddAccountModal.tsx
lines 137-147: switching to the import tab while an OAuth login is pending
cancels the login (errors logged) and clears the pending and loading flags;
every click activates the tab and clears the error. -/
def tabClick (tab : Tab) (cancelResult : Except String Unit) (s : ModalState) :
    ModalState × List ExternalCall :=
  if tab = Tab.importFile ∧ s.oauthPending = true then
    ({ s with oauthPending := false, loading := false, activeTab := tab, error := none },
     (cancelOAuthLogin cancelResult).1)
  else
    ({ s with activeTab := tab, error := none }, [])

/-- `handleOAuthLogin` from src/src/components/AddAccountModal.tsx lines
48-72, parameterized by the outcomes of `onStartOAuth`, `openUrl`,
`onCompleteOAuth` and (inside the final `handleClose`) `cancel_login`.
An empty trimmed name is rejected locally before any call; after any of the
awaited steps throws, the catch block records the message and clears the
`loading` and `oauthPending` flags. -/
def handleOAuthLogin (startResult : Except String OAuthLoginInfo)
    (openResult : Except String Unit) (completeResult : Except String Unit)
    (cancelResult : Except String Unit) (s : ModalState) :
    ModalState × List ExternalCall :=
  if jsTrim s.name = "" then
    ({ s with error := some "Please enter an account name" }, [])
  else
    match startResult with
    | Except.error msg =>
        ({ s with loading := false, error := some msg, oauthPending := false },
         [ExternalCall.startLogin])
    | Except.ok _ =>
        let s1 := { s with loading := false, error := none, oauthPending := true }
        match openResult with
        | Except.error msg =>
            ({ s1 with loading := false, error := some msg, oauthPending := false },
             [ExternalCall.startLogin, ExternalCall.openBrowser])
        | Except.ok _ =>
            match completeResult with
            | Except.error msg =>
                ({ s1 with loading := false, error := some msg, oauthPending := false },
                 [ExternalCall.startLogin, ExternalCall.openBrowser, ExternalCall.completeLogin])
            | Except.ok _ =>
                let closed := handleClose cancelResult s1
                (closed.1,
                 [ExternalCall.startLogin, ExternalCall.openBrowser, ExternalCall.completeLogin]
                   ++ closed.2)

/-- External process inspection result, from `CodexProcessInfo` in
src/src/types.ts. -/
structure CodexProcessInfo where
  count : Nat
  can_switch : Bool
  pids : List Nat
deriving DecidableEq, Repr

/-- `checkProcesses` from src/src/App.tsx lines 47-57: outside Tauri it is a
no-op; on success it stores the fresh status; on failure the error is logged
and the previous status kept. -/
def checkProcesses (tauri : Bool) (result : Except String CodexProcessInfo)
    (p : Option CodexProcessInfo) : Option CodexProcessInfo :=
  if !tauri then p
  else
    match result with
    | Except.ok info => some info
    | Except.error _ => p

/-- The `setInterval(checkProcesses, 3000)` period from src/src/App.tsx line 62. -/
def processPollIntervalMs : Nat := 3000

/-- The `setInterval(..., 60000)` period from src/src/hooks/useAccounts.ts line 197. -/
def usagePollIntervalMs : Nat := 60000

/-- Firing time of the (n+1)-th tick of a `setInterval` timer started at
time 0 with the given period. -/
def setIntervalFireTime (intervalMs : Nat) (n : Nat) : Nat :=
  intervalMs * (n + 1)

/-- One tick of the usage-refresh loop, `refreshUsage().catch(() => {})`
(src/src/hooks/useAccounts.ts line 196): the round's error is swallowed. -/
def usagePollStep (result : Except String (List UsageInfo)) (s : RegistryState) :
    RegistryState :=
  (refreshUsage result s).1

/-- The usage-refresh loop run over a finite trace of per-tick gateway
responses. -/
def usagePollLoop (results : List (Except String (List UsageInfo))) (s : RegistryState) :
    RegistryState :=
  results.foldl (fun st r => usagePollStep r st) s

/-- One tick of the process-status loop (src/src/App.tsx line 62), in the
Tauri environment. -/
def processPollStep (result : Except String CodexProcessInfo)
    (p : Option CodexProcessInfo) : Option CodexProcessInfo :=
  checkProcesses true result p

/-- The process-status loop run over a finite trace of per-tick gateway
responses. -/
def processPollLoop (results : List (Except String CodexProcessInfo))
    (p : Option CodexProcessInfo) : Option CodexProcessInfo :=
  results.foldl (fun st r => processPollStep r st) p

/-- A concrete account record used to evaluate the operations. -/
def sampleAccount (accountId : String) : AccountInfo :=
  { id := accountId, name := "acct " ++ accountId, email := none, plan_type := none,
    auth_mode := AuthMode.chat_gpt, is_active := false, created_at := "2024-01-01",
    last_used_at := none }

/-- A concrete usage snapshot used to evaluate the operations. -/
def sampleUsage (accountId : String) : UsageInfo :=
  { account_id := accountId, plan_type := none, primary_used_percent := some 40,
    primary_window_minutes := some 300, primary_resets_at := none,
    secondary_used_percent := none, secondary_window_minutes := none,
    secondary_resets_at := none, has_credits := none, unlimited_credits := none,
    credits_balance := none, error := none }

/-- A registry entry for account "A" that already holds a fetched snapshot. -/
def entryA : AccountWithUsage :=
  { toAccountInfo := sampleAccount "A", usage := some (sampleUsage "A"), usageLoading := none }

/-- A registry holding just account "A" with its snapshot. -/
def regA : RegistryState := { accounts := [entryA], loading := false, error := none }

/-- A modal state with an OAuth login pending. -/
def modalPending : ModalState :=
  { activeTab := Tab.oauth, name := "Work", filePath := "", loading := false,
    error := none, oauthPending := true, isOpen := true }

/-- A modal state on the OAuth tab whose account name is whitespace-only. -/
def modalBlankName : ModalState :=
  { activeTab := Tab.oauth, name := "   ", filePath := "", loading := false,
    error := none, oauthPending := false, isOpen := true }

/- Helper lemmas on id-keyed list updates and the usage map. -/

theorem map_updateById_eq_self (accountId : String)
    (f : AccountWithUsage → AccountWithUsage) (l : List AccountWithUsage)
    (h : ∀ a ∈ l, a.toAccountInfo.id ≠ accountId) :
    l.map (fun a => if a.toAccountInfo.id == accountId then f a else a) = l := by
  induction l with
  | nil => rfl
  | cons a tl ih =>
    have hc : (a.toAccountInfo.id == accountId) = false := by
      simp only [beq_eq_false_iff_ne]
      exact h a (List.mem_cons_self a tl)
    rw [List.map_cons, if_neg (by simp [hc]),
      ih (fun x hx => h x (List.mem_cons_of_mem a hx))]

theorem find?_id_eq_some_of_nodup (l : List AccountWithUsage) (p : AccountWithUsage)
    (hN : (l.map (fun a => a.toAccountInfo.id)).Nodup) (hp : p ∈ l) :
    l.find? (fun a => a.toAccountInfo.id == p.toAccountInfo.id) = some p := by
  induction l with
  | nil => cases hp
  | cons a tl ih =>
    have hN' : a.toAccountInfo.id ∉ tl.map (fun x => x.toAccountInfo.id) ∧
        (tl.map (fun x => x.toAccountInfo.id)).Nodup := by
      simpa [List.nodup_cons] using hN
    rcases List.mem_cons.mp hp with rfl | hmem
    · simp
    · have hne : ¬ ((a.toAccountInfo.id == p.toAccountInfo.id) = true) := by
        simp only [beq_iff_eq]
        intro he
        exact hN'.1 (he ▸ List.mem_map_of_mem (fun x => x.toAccountInfo.id) hmem)
      have hskip : List.find? (fun x => x.toAccountInfo.id == p.toAccountInfo.id) (a :: tl)
          = List.find? (fun x => x.toAccountInfo.id == p.toAccountInfo.id) tl :=
        List.find?_cons_of_neg tl hne
      rw [hskip]
      exact ih hN'.2 hmem

theorem usageMapGet_eq_of_mem (l : List AccountWithUsage) (p : AccountWithUsage)
    (hN : (l.map (fun a => a.toAccountInfo.id)).Nodup) (hp : p ∈ l) :
    usageMapGet l p.toAccountInfo.id = p.usage := by
  have hN' : (l.reverse.map (fun a => a.toAccountInfo.id)).Nodup := by
    rw [List.map_reverse]
    exact List.nodup_reverse.mpr hN
  unfold usageMapGet
  rw [find?_id_eq_some_of_nodup l.reverse p hN' (List.mem_reverse.mpr hp)]
  rfl

theorem usageMapGet_eq_none (l : List AccountWithUsage) (accountId : String)
    (h : ∀ p ∈ l, p.toAccountInfo.id ≠ accountId) : usageMapGet l accountId = none := by
  unfold usageMapGet
  have hfind : l.reverse.find? (fun a => a.toAccountInfo.id == accountId) = none := by
    rw [List.find?_eq_none]
    intro x hx
    simp only [beq_iff_eq]
    exact h x (List.mem_reverse.mp hx)
  rw [hfind]
  rfl

/-- Claim C3: each of switchAccount, renameAccount, deleteAccount and importFromFile
first issues its gateway mutation and, on success, reloads the registry
(switch and rename with preserveUsage = true, delete and importFromFile with
preserveUsage = false, importFromFile additionally running a full refreshAll
afterward), and, on gateway failure of the mutation, propagates the error to
the caller unmodified with the registry left exactly as before the call. -/
theorem c3_mutation_orchestration :
    (∀ (t : Bool) (aid : String) (lres : Except String (List AccountInfo)) (s : RegistryState),
      switchAccount t aid (Except.ok ()) lres s = (loadAccounts t true lres s, Except.ok ())) ∧
    (∀ (t : Bool) (aid msg : String) (lres : Except String (List AccountInfo)) (s : RegistryState),
      switchAccount t aid (Except.error msg) lres s = (s, Except.error msg)) ∧
    (∀ (t : Bool) (aid nm : String) (lres : Except String (List AccountInfo)) (s : RegistryState),
      renameAccount t aid nm (Except.ok ()) lres s = (loadAccounts t true lres s, Except.ok ())) ∧
    (∀ (t : Bool) (aid nm msg : String) (lres : Except String (List AccountInfo))
        (s : RegistryState),
      renameAccount t aid nm (Except.error msg) lres s = (s, Except.error msg)) ∧
    (∀ (t : Bool) (aid : String) (lres : Except String (List AccountInfo)) (s : RegistryState),
      deleteAccount t aid (Except.ok ()) lres s = (loadAccounts t false lres s, Except.ok ())) ∧
    (∀ (t : Bool) (aid msg : String) (lres : Except String (List AccountInfo)) (s : RegistryState),
      deleteAccount t aid (Except.error msg) lres s = (s, Except.error msg)) ∧
    (∀ (t : Bool) (p n : String) (acc : AccountInfo) (lres : Except String (List AccountInfo))
        (rres : Except String (List UsageInfo)) (s : RegistryState),
      importFromFile t p n (Except.ok acc) lres rres s
        = refreshUsage rres (loadAccounts t false lres s)) ∧
    (∀ (t : Bool) (p n msg : String) (lres : Except String (List AccountInfo))
        (rres : Except String (List UsageInfo)) (s : RegistryState),
      importFromFile t p n (Except.error msg) lres rres s = (s, Except.error msg)) :=
  ⟨fun _ _ _ _ => rfl, fun _ _ _ _ _ => rfl, fun _ _ _ _ _ => rfl, fun _ _ _ _ _ _ => rfl,
   fun _ _ _ _ => rfl, fun _ _ _ _ _ => rfl, fun _ _ _ _ _ _ _ => rfl, fun _ _ _ _ _ _ _ => rfl⟩

/-- Claim C5: when the gateway list-accounts call fails, loadAccounts sets the
registry-level error state and leaves the account list exactly as before
(no entry added, removed, or modified), with loading cleared. -/
theorem c5_load_failure_atomic (preserveUsage : Bool) (msg : String) (s : RegistryState) :
    loadAccounts true preserveUsage (Except.error msg) s
      = { accounts := s.accounts, loading := false, error := some msg } :=
  rfl

/-- Claim C9: the engine runs two independent periodic loops — the process-status
loop every 3000 ms and the usage-refresh loop every 60000 ms, each tick one
interval after the previous — and a failed round leaves the loop state
unchanged while the rest of the trace is still processed, so no single
failure kills either loop. -/
theorem c9_polling_loops :
    processPollIntervalMs = 3 * 1000 ∧
    usagePollIntervalMs = 60 * 1000 ∧
    (∀ n : Nat, setIntervalFireTime processPollIntervalMs (n + 1)
        = setIntervalFireTime processPollIntervalMs n + processPollIntervalMs) ∧
    (∀ n : Nat, setIntervalFireTime usagePollIntervalMs (n + 1)
        = setIntervalFireTime usagePollIntervalMs n + usagePollIntervalMs) ∧
    (∀ (msg : String) (rest : List (Except String (List UsageInfo))) (s : RegistryState),
      usagePollLoop (Except.error msg :: rest) s = usagePollLoop rest s) ∧
    (∀ (msg : String) (rest : List (Except String CodexProcessInfo))
        (p : Option CodexProcessInfo),
      processPollLoop (Except.error msg :: rest) p = processPollLoop rest p) := by
  refine ⟨rfl, rfl, fun n => ?_, fun n => ?_, fun _ _ _ => rfl, fun _ _ _ => rfl⟩
  · unfold setIntervalFireTime
    ring
  · unfold setIntervalFireTime
    ring

/-- Claim C10: on success, refreshAll sets usageLoading to false on every account in
the registry — also on accounts the response contains no usage entry for —
so a completing refreshAll clears the flag set by any refreshSingleUsage
still in flight for any id. -/
theorem c10_refreshAll_clears_every_loading_flag (usageList : List UsageInfo)
    (s : RegistryState) :
    ((refreshUsage (Except.ok usageList) s).1.accounts.map (fun e => e.usageLoading)
        = List.replicate s.accounts.length (some false)) ∧
    (∀ accountId : String,
      (refreshUsage (Except.ok usageList) (refreshSingleStart accountId s)).1.accounts.map
          (fun e => e.usageLoading)
        = List.replicate s.accounts.length (some false)) := by
  constructor
  · show (s.accounts.map _).map _ = _
    rw [List.map_map]
    exact List.map_const' s.accounts (some false)
  · intro accountId
    show ((s.accounts.map _).map _).map _ = _
    rw [List.map_map, List.map_map]
    exact List.map_const' s.accounts (some false)

theorem refreshSingleUsage_ok_accounts (accountId : String) (u : UsageInfo)
    (s : RegistryState) :
    (refreshSingleUsage accountId (Except.ok u) s).1.accounts
      = s.accounts.map (fun a =>
          if a.toAccountInfo.id == accountId then
            { a with usage := some u, usageLoading := some false }
          else a) := by
  show (s.accounts.map _).map _ = _
  rw [List.map_map]
  apply List.map_congr_left
  intro a _
  by_cases h : (a.toAccountInfo.id == accountId) = true
  · simp [Function.comp, h]
  · simp [Function.comp, h]

theorem refreshSingleUsage_error_accounts (accountId : String) (msg : String)
    (s : RegistryState) :
    (refreshSingleUsage accountId (Except.error msg) s).1.accounts
      = s.accounts.map (fun a =>
          if a.toAccountInfo.id == accountId then { a with usageLoading := some false } else a) := by
  show (s.accounts.map _).map _ = _
  rw [List.map_map]
  apply List.map_congr_left
  intro a _
  by_cases h : (a.toAccountInfo.id == accountId) = true
  · simp [Function.comp, h]
  · simp [Function.comp, h]

/-- Claim C4: refreshSingleUsage(id) sets usageLoading for that id, then on
completion always clears it — on success replacing the snapshot, on failure
leaving the snapshot unchanged and propagating the error — and pointwise it
never mutates any entry with a different id; a completion reaching a registry
that no longer contains the id is a no-op on the state. -/
theorem c4_refreshOne_completion (accountId : String) (u : UsageInfo) (msg : String)
    (s : RegistryState) (i : Nat) :
    ((refreshSingleStart accountId s).accounts[i]?
       = (s.accounts[i]?).map (fun a =>
           if a.toAccountInfo.id == accountId then { a with usageLoading := some true } else a)) ∧
    ((refreshSingleUsage accountId (Except.ok u) s).1.accounts[i]?
       = (s.accounts[i]?).map (fun a =>
           if a.toAccountInfo.id == accountId then
             { a with usage := some u, usageLoading := some false }
           else a)) ∧
    ((refreshSingleUsage accountId (Except.ok u) s).2 = Except.ok ()) ∧
    ((refreshSingleUsage accountId (Except.error msg) s).1.accounts[i]?
       = (s.accounts[i]?).map (fun a =>
           if a.toAccountInfo.id == accountId then { a with usageLoading := some false } else a)) ∧
    ((refreshSingleUsage accountId (Except.error msg) s).2 = Except.error msg) ∧
    ((∀ a ∈ s.accounts, a.toAccountInfo.id ≠ accountId) →
      (refreshSingleComplete accountId (Except.ok u) s).1 = s ∧
      (refreshSingleComplete accountId (Except.error msg) s).1 = s) := by
  refine ⟨?_, ?_, rfl, ?_, rfl, ?_⟩
  · show (s.accounts.map _)[i]? = _
    rw [List.getElem?_map]
  · rw [refreshSingleUsage_ok_accounts, List.getElem?_map]
  · rw [refreshSingleUsage_error_accounts, List.getElem?_map]
  · intro h
    constructor
    · show ({ s with accounts := s.accounts.map _ } : RegistryState) = s
      rw [map_updateById_eq_self accountId _ s.accounts h]
    · show ({ s with accounts := s.accounts.map _ } : RegistryState) = s
      rw [map_updateById_eq_self accountId _ s.accounts h]

/-- Witness for C4 at a concrete registry: completing a refresh for the
absent id "B" leaves the registry holding only account "A" untouched. -/
theorem c4_refreshOne_completion_witness :
    (refreshSingleComplete "B" (Except.ok (sampleUsage "B")) regA).1 = regA ∧
    (refreshSingleComplete "B" (Except.error "boom") regA).1 = regA :=
  (c4_refreshOne_completion "B" (sampleUsage "B") "boom" regA 0).2.2.2.2.2 (by decide)

/-- Claim C6: two overlapping refreshSingleUsage calls for the same id, composed in
completion order with the first-issued call resolving last, leave every
matching entry with the first call's snapshot and usageLoading = false, and
every other entry untouched (last-write-wins by completion order). -/
theorem c6_overlapping_refreshOne_last_completion_wins (accountId : String)
    (u1 u2 : UsageInfo) (s : RegistryState) :
    (refreshSingleComplete accountId (Except.ok u1)
        ((refreshSingleComplete accountId (Except.ok u2)
          (refreshSingleStart accountId (refreshSingleStart accountId s))).1)).1.accounts
      = s.accounts.map (fun a =>
          if a.toAccountInfo.id == accountId then
            { a with usage := some u1, usageLoading := some false }
          else a) := by
  show (((s.accounts.map _).map _).map _).map _ = _
  rw [List.map_map, List.map_map, List.map_map]
  apply List.map_congr_left
  intro a _
  by_cases h : (a.toAccountInfo.id == accountId) = true
  · simp [Function.comp, h]
  · simp [Function.comp, h]

/-- Claim C1 counterexample: in a registry whose only account "A" holds a fetched
snapshot, a successful refreshAll whose response contains no entry for "A"
does not keep the snapshot — it replaces it with `none`. -/
theorem c1_counterexample :
    entryA.toAccountInfo.id = "A" ∧
    entryA.usage = some (sampleUsage "A") ∧
    (∀ u ∈ ([] : List UsageInfo), u.account_id ≠ "A") ∧
    ((refreshUsage (Except.ok []) regA).1.accounts.map (fun e => e.usage) = [none]) ∧
    ((refreshUsage (Except.ok []) regA).1.accounts.map (fun e => e.usage)
       ≠ regA.accounts.map (fun e => e.usage)) :=
  ⟨rfl, rfl, by simp, rfl, by decide⟩

/-- Claim C1 (amended): on success, refreshAll rebuilds every account from its old
entry, replacing the snapshot by the response entry found for its id —
so an account whose id is absent from the response has its snapshot cleared
to `none`, not kept — and sets usageLoading to false, preserving the account
metadata; on failure the state is untouched and the error propagates. -/
theorem c1_refreshAll_overlay (usageList : List UsageInfo) (s : RegistryState) (i : Nat) :
    ((refreshUsage (Except.ok usageList) s).1.accounts[i]?
       = (s.accounts[i]?).map (fun a =>
           { a with usage := usageList.find? (fun u => u.account_id == a.toAccountInfo.id),
                    usageLoading := some false })) ∧
    (∀ a : AccountWithUsage, s.accounts[i]? = some a →
      (∀ u ∈ usageList, u.account_id ≠ a.toAccountInfo.id) →
      ∃ b : AccountWithUsage,
        (refreshUsage (Except.ok usageList) s).1.accounts[i]? = some b ∧
        b.toAccountInfo = a.toAccountInfo ∧ b.usage = none ∧ b.usageLoading = some false) ∧
    (∀ msg : String, refreshUsage (Except.error msg) s = (s, Except.error msg)) := by
  have hpt : (refreshUsage (Except.ok usageList) s).1.accounts[i]?
      = (s.accounts[i]?).map (fun a =>
          { a with usage := usageList.find? (fun u => u.account_id == a.toAccountInfo.id),
                   usageLoading := some false }) := by
    show (s.accounts.map _)[i]? = _
    rw [List.getElem?_map]
  refine ⟨hpt, ?_, fun _ => rfl⟩
  intro a ha habsent
  have hfind : usageList.find? (fun u => u.account_id == a.toAccountInfo.id) = none := by
    rw [List.find?_eq_none]
    intro u hu
    simp only [beq_iff_eq]
    exact habsent u hu
  have hb : (refreshUsage (Except.ok usageList) s).1.accounts[i]?
      = some { a with usage := none, usageLoading := some false } := by
    rw [hpt, ha]
    simp [hfind]
  exact ⟨{ a with usage := none, usageLoading := some false }, hb, rfl, rfl, rfl⟩

/-- Witness for C1 (amended): with the response empty, account "A" keeps its
metadata but its snapshot is cleared to `none` and its flag to false. -/
theorem c1_refreshAll_overlay_witness :
    ∃ b : AccountWithUsage,
      (refreshUsage (Except.ok []) regA).1.accounts[0]? = some b ∧
      b.toAccountInfo = entryA.toAccountInfo ∧ b.usage = none ∧ b.usageLoading = some false :=
  (c1_refreshAll_overlay [] regA 0).2.1 entryA rfl (by simp)

/-- Claim C2: a reload with preserveUsage = true replaces the registry with exactly
the fetched account list; an id already present (ids being unique) carries
its old snapshot forward unchanged, an id only in the new list gets no
snapshot, and ids only in the old list are gone because the new list is
exhaustive; every entry restarts with no loading flag. -/
theorem c2_load_preserveUsage (accountList : List AccountInfo) (s : RegistryState)
    (hN : (s.accounts.map (fun a => a.toAccountInfo.id)).Nodup) :
    ((loadAccounts true true (Except.ok accountList) s).accounts.map
        (fun e => e.toAccountInfo) = accountList) ∧
    (∀ e ∈ (loadAccounts true true (Except.ok accountList) s).accounts,
      e.usageLoading = none ∧
      (∀ p ∈ s.accounts, p.toAccountInfo.id = e.toAccountInfo.id → e.usage = p.usage) ∧
      ((∀ p ∈ s.accounts, p.toAccountInfo.id ≠ e.toAccountInfo.id) → e.usage = none)) := by
  have hred : (loadAccounts true true (Except.ok accountList) s).accounts
      = accountList.map (fun a =>
          { toAccountInfo := a, usage := usageMapGet s.accounts a.id, usageLoading := none }) :=
    rfl
  constructor
  · rw [hred, List.map_map]
    exact List.map_id' accountList
  · intro e he
    rw [hred] at he
    obtain ⟨a, _, rfl⟩ := List.mem_map.mp he
    refine ⟨rfl, ?_, ?_⟩
    · intro p hp hid
      show usageMapGet s.accounts a.id = p.usage
      have := usageMapGet_eq_of_mem s.accounts p hN hp
      rwa [hid] at this
    · intro hnone
      exact usageMapGet_eq_none s.accounts a.id hnone

/-- Witness for C2 at a concrete registry: reloading with a list that keeps
"A" and adds "B" yields exactly those two accounts. -/
theorem c2_load_preserveUsage_witness :
    (loadAccounts true true (Except.ok [sampleAccount "A", sampleAccount "B"]) regA).accounts.map
        (fun e => e.toAccountInfo) = [sampleAccount "A", sampleAccount "B"] :=
  (c2_load_preserveUsage [sampleAccount "A", sampleAccount "B"] regA (by decide)).1

/-- Claim C7: with an OAuth session pending, closing the add-account surface or
switching away to the import tab issues the cancel-login gateway call and
clears the pending flag, returning the session to idle. -/
theorem c7_cancel_on_close_or_tab_switch (cancelResult : Except String Unit) (s : ModalState)
    (h : s.oauthPending = true) :
    ((handleClose cancelResult s).2 = [ExternalCall.cancelLogin]) ∧
    ((handleClose cancelResult s).1.oauthPending = false) ∧
    ((tabClick Tab.importFile cancelResult s).2 = [ExternalCall.cancelLogin]) ∧
    ((tabClick Tab.importFile cancelResult s).1.oauthPending = false) := by
  refine ⟨?_, rfl, ?_, ?_⟩
  · simp [handleClose, cancelOAuthLogin, h]
  · simp [tabClick, cancelOAuthLogin, h]
  · simp [tabClick, h]

/-- Witness for C7 on a concrete pending modal state. -/
theorem c7_cancel_witness :
    ((handleClose (Except.ok ()) modalPending).2 = [ExternalCall.cancelLogin]) ∧
    ((handleClose (Except.ok ()) modalPending).1.oauthPending = false) ∧
    ((tabClick Tab.importFile (Except.ok ()) modalPending).2 = [ExternalCall.cancelLogin]) ∧
    ((tabClick Tab.importFile (Except.ok ()) modalPending).1.oauthPending = false) :=
  c7_cancel_on_close_or_tab_switch (Except.ok ()) modalPending rfl

/-- Claim C8: starting an OAuth login with a name that trims to empty performs zero
calls of any kind, is rejected with a local validation error, and changes
nothing but the error message — in particular the pending flag keeps its
value, so an idle session stays idle. -/
theorem c8_empty_name_local_rejection (startResult : Except String OAuthLoginInfo)
    (openResult completeResult cancelResult : Except String Unit) (s : ModalState)
    (h : jsTrim s.name = "") :
    ((handleOAuthLogin startResult openResult completeResult cancelResult s).2 = []) ∧
    ((handleOAuthLogin startResult openResult completeResult cancelResult s).1.oauthPending
        = s.oauthPending) ∧
    (handleOAuthLogin startResult openResult completeResult cancelResult s
        = ({ s with error := some "Please enter an account name" }, [])) := by
  have hred : handleOAuthLogin startResult openResult completeResult cancelResult s
      = ({ s with error := some "Please enter an account name" }, []) := by
    simp [handleOAuthLogin, h]
  exact ⟨by rw [hred], by rw [hred], hred⟩

/-- Witness for C8 on a concrete whitespace-only name. -/
theorem c8_empty_name_local_rejection_witness :
    ((handleOAuthLogin (Except.ok { auth_url := "u", callback_port := 1455 }) (Except.ok ())
        (Except.ok ()) (Except.ok ()) modalBlankName).2 = []) ∧
    ((handleOAuthLogin (Except.ok { auth_url := "u", callback_port := 1455 }) (Except.ok ())
        (Except.ok ()) (Except.ok ()) modalBlankName).1.oauthPending
        = modalBlankName.oauthPending) ∧
    (handleOAuthLogin (Except.ok { auth_url := "u", callback_port := 1455 }) (Except.ok ())
        (Except.ok ()) (Except.ok ()) modalBlankName
      = ({ modalBlankName with error := some "Please enter an account name" }, [])) :=
  c8_empty_name_local_rejection (Except.ok { auth_url := "u", callback_port := 1455 })
    (Except.ok ()) (Except.ok ()) (Except.ok ()) modalBlankName (by decide)

end CodexSwitcher
